import Mathlib

/-!
Verification of the dysarthria voice transcription application.

The development embeds, as executable Lean definitions, the parts of the
TypeScript sources that the verified claims are about:

* the `WhisperService` audio pipeline (resampler, WAV encoder, chunk
  processing, HTTP response classification, connect and disconnect
  lifecycle).  The repository carries two iterations of this class: the
  one in `src/unnamed/part_001` (namespace `WhisperV1` below) and a later
  one embedded in `src/components/AudioVisualizer.tsx` (namespace
  `WhisperV2`), which adds a silence gate, a warm-up callback and a
  one-shot ready callback.  The resampler and the WAV encoder are written
  identically in both files and are embedded once, at top level.
* the session coordination handlers of `App.tsx` (`src/unnamed/part_000`):
  `handleHostMessage`, `handleGuestResponse`, `handleGuestMessage`.

Machine floats of the source are modelled by exact rationals, JavaScript
strings by `String`, byte buffers by `List Nat` with every element a byte
value, and the callback side effects by an explicit event list.
-/

/-- Observable side effects of the whisper service: each constructor stands
for one callback invocation of the `WhisperConfig` (from `types.ts`), or for
one outgoing network request carrying an encoded WAV body. -/
inductive Ev where
  | connectEv : Ev
  | disconnectEv : Ev
  | errorEv (msg : String) : Ev
  | transcriptionEv (text : String) : Ev
  | broadcastEv (text : String) : Ev
  | warmupEv : Ev
  | readyEv : Ev
  | requestSent (bytes : List Nat) : Ev
deriving DecidableEq

/-- Recognizer for transcription events (calls of `config.onTranscription`). -/
def isTranscriptionEv : Ev → Bool
  | .transcriptionEv _ => true
  | _ => false

/-- Recognizer for error events (calls of `config.onError`). -/
def isErrorEv : Ev → Bool
  | .errorEv _ => true
  | _ => false

/-- Recognizer for outgoing network requests (calls of `fetch`). -/
def isRequestEv : Ev → Bool
  | .requestSent _ => true
  | _ => false

/-- Recognizer for warm-up events (calls of `config.onWarmup`). -/
def isWarmupEv : Ev → Bool
  | .warmupEv => true
  | _ => false

/-- Recognizer for ready events (calls of `config.onReady`). -/
def isReadyEv : Ev → Bool
  | .readyEv => true
  | _ => false

/-- Body of an HTTP response from the inference endpoint, as far as the
service inspects it: a JSON object (with optional string fields `text` and
`error`), a JSON array whose first element may carry a string `text`
field, or a body that is not valid JSON at all. -/
inductive HFBody where
  | objBody (textField : Option String) (errorField : Option String) : HFBody
  | arrBody (textField : Option String) : HFBody
  | rawText (s : String) : HFBody
deriving DecidableEq

/-- An HTTP response: status code, status text and body. -/
structure HFResponse where
  status : Nat
  statusText : String
  body : HFBody
deriving DecidableEq

/-- The `response.ok` predicate of the fetch API: status in the range
200 to 299. -/
def responseOk (r : HFResponse) : Bool :=
  200 ≤ r.status && r.status ≤ 299

/-- JavaScript `String.prototype.includes`: `pat` occurs contiguously in
`s`. -/
def containsSub (s pat : String) : Bool :=
  decide (pat.toList <:+: s.toList)

/-- JavaScript `String.prototype.trim`: drop leading and trailing
whitespace. -/
def jsTrim (s : String) : String :=
  String.mk (((s.data.dropWhile Char.isWhitespace).reverse.dropWhile
    Char.isWhitespace).reverse)

/-- Computable ceiling on the rationals (the value of `Math.ceil`). -/
def ratCeil (q : ℚ) : ℤ :=
  -Rat.floor (-q)

theorem ratFloor_eq (q : ℚ) : Rat.floor q = ⌊q⌋ :=
  (Rat.floor_def' q).trans Rat.floor_def.symm

theorem ratCeil_eq (q : ℚ) : ratCeil q = ⌈q⌉ := by
  rw [ratCeil, ratFloor_eq, Int.floor_neg, neg_neg]

/-- Target sample rate of the pipeline (`TARGET_SAMPLE_RATE = 16000` in both
copies of `WhisperService`). -/
def TARGET_SAMPLE_RATE : Nat := 16000

/-! ### Resampler

Embeds `WhisperService.resampleToTarget` (identical in
`src/unnamed/part_001` lines 64 to 85 and in the copy inside
`src/components/AudioVisualizer.tsx`).  The class fixes the target rate to
`TARGET_SAMPLE_RATE`; the algorithm itself never depends on that value, so
it is embedded with the target rate as a parameter and specialised below. -/

/-- Resampling core: the body of `resampleToTarget` with the target rate
a parameter.  For equal rates, a fresh copy of the input is returned.
Otherwise the output length is the ceiling of `length / ratio` with
`ratio = inputSampleRate / target`, and output sample `i` linearly
interpolates the two input samples around fractional index `i * ratio`,
clamping the second read to the last available sample. -/
def resampleCore (target : ℚ) (input : List ℚ) (inputSampleRate : ℚ) : List ℚ :=
  if inputSampleRate = target then
    input
  else
    let r := inputSampleRate / target
    let newLength := (ratCeil ((input.length : ℚ) / r)).toNat
    (List.range newLength).map (fun (i : Nat) =>
      let idx : ℚ := (i : ℚ) * r
      let p := (Rat.floor idx).toNat
      let t := idx - (p : ℚ)
      let s0 := input.getD p 0
      let s1 := if p + 1 < input.length then input.getD (p + 1) 0 else s0
      s0 * (1 - t) + s1 * t)

/-- The method as called by the service: target rate fixed to 16000. -/
def resampleToTarget (input : List ℚ) (inputSampleRate : ℚ) : List ℚ :=
  resampleCore (TARGET_SAMPLE_RATE : ℚ) input inputSampleRate

/-! ### WAV encoder

Embeds `WhisperService.encodeToWAV` (identical in `src/unnamed/part_001`
lines 216 to 263 and in the copy inside
`src/components/AudioVisualizer.tsx`).  The `DataView` writes cover
disjoint offsets 0 to 43 in increasing order followed by the samples, so
the buffer is embedded as the concatenation of the written fields in
offset order. -/

/-- Truncation toward zero, the integer conversion that `DataView.setInt16`
applies to a JavaScript number.  On a rational `num / den` with positive
denominator this is exactly T-division of the numerator by the
denominator. -/
def jsTrunc (q : ℚ) : ℤ :=
  q.num.tdiv q.den

/-- Little-endian bytes of a 16 bit field (`DataView.setUint16`, which
reduces the value modulo 2 ^ 16). -/
def u16le (v : Nat) : List Nat :=
  [v % 256, v / 256 % 256]

/-- Little-endian bytes of a 32 bit field (`DataView.setUint32`, which
reduces the value modulo 2 ^ 32). -/
def u32le (v : Nat) : List Nat :=
  [v % 256, v / 256 % 256, v / 65536 % 256, v / 16777216 % 256]

/-- One PCM sample as stored by the encoder loop: clamp to `[-1, 1]`, scale
negative values by 32768 and non-negative ones by 32767, truncate toward
zero, and store as a little-endian two's complement 16 bit value. -/
def sampleToI16 (s : ℚ) : ℤ :=
  let c := max (-1) (min 1 s)
  if c < 0 then jsTrunc (c * 32768) else jsTrunc (c * 32767)

/-- The two bytes that `setInt16` writes for one sample. -/
def i16leBytes (s : ℚ) : List Nat :=
  u16le ((sampleToI16 s % 65536).toNat)

/-- The encoder: 44 header bytes in write order, then the samples. -/
def encodeToWAV (samples : List ℚ) (sampleRate : Nat) : List Nat :=
  -- "RIFF"
  [82, 73, 70, 70]
  -- RIFF chunk length
  ++ u32le (36 + samples.length * 2)
  -- "WAVE"
  ++ [87, 65, 86, 69]
  -- "fmt "
  ++ [102, 109, 116, 32]
  -- format chunk length
  ++ u32le 16
  -- sample format (raw PCM)
  ++ u16le 1
  -- channel count
  ++ u16le 1
  -- sample rate
  ++ u32le sampleRate
  -- byte rate
  ++ u32le (sampleRate * 2)
  -- block align
  ++ u16le 2
  -- bits per sample
  ++ u16le 16
  -- "data"
  ++ [100, 97, 116, 97]
  -- data chunk length
  ++ u32le (samples.length * 2)
  -- PCM samples
  ++ (samples.map i16leBytes).flatten

/-- Little-endian value of a byte slice (used to read header fields back). -/
def leVal (bs : List Nat) : Nat :=
  bs.foldr (fun b acc => b + 256 * acc) 0

/-! ## WhisperService, first iteration (`src/unnamed/part_001`)

State and behaviour of the `WhisperService` class of
`src/unnamed/part_001`.  Nullable resource fields
(`inputAudioContext`, `processor`, `mediaStream`, `processingInterval`)
are modelled by booleans recording whether the field currently holds a
resource; the accumulation buffer and its running length are carried
verbatim.  Every method is a function from the state (plus the relevant
environment input) to the new state and the emitted events.  The mutual
recursion between `processAudioChunk` and `disconnect` is bounded by an
explicit fuel argument; from any state the nested call returns at depth
two at the latest, because `disconnect` clears `isConnected` before it
re-enters `processAudioChunk`, whose guard then fires. -/

namespace WhisperV1

/-- Mutable fields of the class. -/
structure State where
  isConnected : Bool
  hasAudioContext : Bool
  hasProcessor : Bool
  hasMediaStream : Bool
  hasTimer : Bool
  audioBuffer : List (List ℚ)
  bufferLength : Nat
deriving DecidableEq

/-- The freshly constructed service, before `connect`. -/
def initState : State :=
  { isConnected := false, hasAudioContext := false, hasProcessor := false
    hasMediaStream := false, hasTimer := false, audioBuffer := [], bufferLength := 0 }

/-- The message of the error thrown on HTTP 401 or 403. -/
def authMsg : String :=
  "Authentication failed. For Private/Protected endpoints, check your HF Token."

/-- Embeds `sendToHuggingFace` (lines 121 to 184): classify the response,
returning the emitted events or, on `throw`, the message of the thrown
error.  A success body that is not valid JSON makes `response.json()`
reject, which propagates as a generic error. -/
def sendToHuggingFace (resp : HFResponse) : Except String (List Ev) :=
  if !responseOk resp then
    if resp.status == 401 || resp.status == 403 then
      .error authMsg
    else
      let base := "HF API Error: " ++ toString resp.status ++ " " ++ resp.statusText
      match resp.body with
      | .objBody _ (some e) =>
          -- truthiness of errorJson.error: the empty string is falsy
          if e = "" then .error base
          else if containsSub e "loading" then .ok []   -- console.warn only
          else .error ("HF API Error: " ++ e)
      | .objBody _ none => .error base
      | .arrBody _ => .error base
      | .rawText s => .error (if s.length < 200 then base ++ " - " ++ s else base)
  else
    match resp.body with
    | .rawText _ => .error "SyntaxError: unexpected token in JSON body"
    | .objBody t? _ =>
        let text := jsTrim (t?.getD "")
        if 0 < text.length then .ok [.transcriptionEv text] else .ok []
    | .arrBody t? =>
        let text := jsTrim (t?.getD "")
        if 0 < text.length then .ok [.transcriptionEv text] else .ok []

mutual

/-- Embeds `processAudioChunk` (lines 87 to 119): flush the accumulated
buffer, encode it, post it (`resp` is the response the network returns to
that request), and on an authentication failure surface the error and
disconnect. -/
def processAudioChunk : Nat → State → HFResponse → State × List Ev
  | 0, st, _ => (st, [])
  | fuel + 1, st, resp =>
    if st.bufferLength == 0 || !st.isConnected then (st, [])
    else
      let flat := st.audioBuffer.flatten
      let st1 := { st with audioBuffer := [], bufferLength := 0 }
      let wav := encodeToWAV flat TARGET_SAMPLE_RATE
      match sendToHuggingFace resp with
      | .ok evs => (st1, .requestSent wav :: evs)
      | .error msg =>
          if containsSub msg "Authentication" then
            let r := disconnect fuel st1 resp
            (r.1, .requestSent wav :: .errorEv msg :: r.2)
          else
            -- console.warn only: report nothing, keep running
            (st1, [.requestSent wav])

/-- Embeds `disconnect` (lines 186 to 213): clear the connected flag,
cancel the timer, process any remaining buffer, release the processor, the
media stream and the audio context, then signal disconnect. -/
def disconnect : Nat → State → HFResponse → State × List Ev
  | 0, st, _ => (st, [])
  | fuel + 1, st, resp =>
    let st1 := { st with isConnected := false, hasTimer := false }
    let r :=
      if 0 < st1.bufferLength then processAudioChunk fuel st1 resp
      else (st1, [])
    let st3 := { r.1 with hasProcessor := false, hasMediaStream := false
                          hasAudioContext := false }
    (st3, r.2 ++ [.disconnectEv])

end

/-- Embeds `connect` (lines 21 to 61).  The audio context is created
first; `micOk` tells whether `getUserMedia` resolves, and `errMsg` is the
message of the rejection when it does not.  On failure the catch block
surfaces the error; on success the processor is wired up, the connected
flag and the flush timer are set, and `onConnect` fires before the timer
is installed. -/
def connect (st : State) (micOk : Bool) (errMsg : String) : State × List Ev :=
  if st.isConnected then (st, [])
  else
    let st1 := { st with hasAudioContext := true }
    if micOk then
      let st2 := { st1 with hasMediaStream := true, hasProcessor := true }
      let st3 := { st2 with isConnected := true }
      ({ st3 with hasTimer := true }, [.connectEv])
    else
      (st1, [.errorEv errMsg])

end WhisperV1

/-! ## WhisperService, revised iteration (`src/components/AudioVisualizer.tsx`)

The later copy of the class adds the `hasSuccessfullyTranscribed` flag with
the one-shot `onReady` callback, the `onWarmup` callback on a model-loading
error body, the `onBroadcastTranscript` callback, and the `isSilent` gate
that drops near-silent chunks before encoding. -/

namespace WhisperV2

/-- Mutable fields of the revised class. -/
structure State where
  isConnected : Bool
  hasAudioContext : Bool
  hasProcessor : Bool
  hasMediaStream : Bool
  hasTimer : Bool
  hasSuccessfullyTranscribed : Bool
  audioBuffer : List (List ℚ)
  bufferLength : Nat
deriving DecidableEq

/-- Embeds `isSilent` (lines 165 to 174 of the class): mean absolute
amplitude below the fixed threshold 0.008.  For an empty block the
JavaScript average is NaN and the comparison with the threshold is false. -/
def isSilent (samples : List ℚ) : Bool :=
  samples.length != 0 &&
    decide ((samples.map (fun s => |s|)).sum / (samples.length : ℚ) < 8 / 1000)

/-- The string field `result.text` that the success path of the revised
`sendToHuggingFace` reads from an object or array body (absent otherwise). -/
def bodyText : HFBody → Option String
  | .objBody t? _ => t?
  | .arrBody t? => t?
  | .rawText _ => none

/-- Embeds the revised `sendToHuggingFace` (lines 216 to 274 of the class).
The boolean argument and result carry the `hasSuccessfullyTranscribed`
flag; an `.error` result is the message of the thrown error.  On a
non-success status whose JSON body carries an error string containing
"loading", the warm-up callback fires and the method returns normally.
On the first success with non-empty trimmed text the ready callback fires
once, then the transcription and broadcast callbacks. -/
def sendToHuggingFace (hasST : Bool) (resp : HFResponse) :
    Bool × Except String (List Ev) :=
  if !responseOk resp then
    let base := "HF API Error: " ++ toString resp.status ++ " " ++ resp.statusText
    match resp.body with
    | .objBody _ (some e) =>
        if containsSub e "loading" then (hasST, .ok [.warmupEv])
        else (hasST, .error base)
    | .objBody _ none => (hasST, .error base)
    | .arrBody _ => (hasST, .error base)
    | .rawText _ => (hasST, .error base)   -- JSON.parse throws, catch is empty
  else
    match resp.body with
    | .rawText _ => (hasST, .error "SyntaxError: unexpected token in JSON body")
    | b =>
        let text := jsTrim ((bodyText b).getD "")
        if 0 < text.length then
          if !hasST then
            (true, .ok [.readyEv, .transcriptionEv text, .broadcastEv text])
          else
            (hasST, .ok [.transcriptionEv text, .broadcastEv text])
        else (hasST, .ok [])

mutual

/-- Embeds the revised `processAudioChunk` (lines 179 to 211 of the class):
after the flush swap, a chunk that the silence gate classifies silent is
dropped before encoding, producing no request; otherwise the chunk is
encoded and posted, and an authentication failure message surfaces the
error and disconnects. -/
def processAudioChunk : Nat → State → HFResponse → State × List Ev
  | 0, st, _ => (st, [])
  | fuel + 1, st, resp =>
    if !st.isConnected || st.bufferLength == 0 then (st, [])
    else
      let flat := st.audioBuffer.flatten
      let st1 := { st with audioBuffer := [], bufferLength := 0 }
      if isSilent flat then (st1, [])
      else
        let wav := encodeToWAV flat TARGET_SAMPLE_RATE
        let s := sendToHuggingFace st1.hasSuccessfullyTranscribed resp
        let st2 := { st1 with hasSuccessfullyTranscribed := s.1 }
        match s.2 with
        | .ok evs => (st2, .requestSent wav :: evs)
        | .error msg =>
            if containsSub msg "Authentication" then
              let r := disconnect fuel st2 resp
              (r.1, .requestSent wav :: .errorEv msg :: r.2)
            else
              -- console.error only
              (st2, [.requestSent wav])

/-- Embeds the revised `disconnect` (lines 279 to 294 of the class); same
order of operations as in the first iteration. -/
def disconnect : Nat → State → HFResponse → State × List Ev
  | 0, st, _ => (st, [])
  | fuel + 1, st, resp =>
    let st1 := { st with isConnected := false, hasTimer := false }
    let r :=
      if 0 < st1.bufferLength then processAudioChunk fuel st1 resp
      else (st1, [])
    let st3 := { r.1 with hasProcessor := false, hasMediaStream := false
                          hasAudioContext := false }
    (st3, r.2 ++ [.disconnectEv])

end

end WhisperV2

/-! ## Session coordination (`App.tsx`, `src/unnamed/part_000`)

The host keeps one optional pending guest and a guest list; the guest view
keeps a connection status and a transcript.  Signaling messages are the
tagged union of `types.ts` with the payload shapes the handlers read. -/

/-- Guest record status (`types.ts`). -/
inductive GuestStatus where
  | pending : GuestStatus
  | connected : GuestStatus
  | rejected : GuestStatus
deriving DecidableEq

/-- Guest record (`types.ts`). -/
structure Guest where
  id : String
  name : String
  status : GuestStatus
deriving DecidableEq

/-- Sender of a transcript entry (`types.ts`). -/
inductive SenderKind where
  | userSender : SenderKind
  | modelSender : SenderKind
deriving DecidableEq

/-- Transcript entry (`types.ts`). -/
structure EntryM where
  id : String
  sender : SenderKind
  text : String
  timestamp : Nat
  isPartial : Option Bool
deriving DecidableEq

/-- Signaling messages with the payload fields the handlers access. -/
inductive SigMsg where
  | joinRequestMsg (senderId : String) : SigMsg
  | joinApproved (guestId : Option String) : SigMsg
  | joinRejected (guestId : Option String) : SigMsg
  | transcriptUpdate (entry : EntryM) : SigMsg
  | transcriptClear : SigMsg
  | sessionEnded : SigMsg
deriving DecidableEq

/-- Host-side state touched by `handleHostMessage` and
`handleGuestResponse`. -/
structure HostState where
  pendingGuest : Option Guest
  guests : List Guest
deriving DecidableEq

/-- Embeds `handleHostMessage` (lines 75 to 81): a `JOIN_REQUEST`
unconditionally installs a fresh pending guest record for the sender, with
display name "Guest " plus the first four characters of the sender id;
every other message type is ignored. -/
def handleHostMessage (st : HostState) (m : SigMsg) : HostState :=
  match m with
  | .joinRequestMsg sid =>
      { st with pendingGuest := some ⟨sid, "Guest " ++ sid.take 4, .pending⟩ }
  | _ => st

/-- Embeds `handleGuestResponse` (lines 218 to 233): with no pending guest
it does nothing; otherwise accepting appends the guest as connected and
sends `JOIN_APPROVED`, rejecting sends `JOIN_REJECTED`, and the pending
slot is cleared either way.  The second component lists the messages sent
over the signaling channel. -/
def handleGuestResponse (st : HostState) (accept : Bool) :
    HostState × List SigMsg :=
  match st.pendingGuest with
  | none => (st, [])
  | some g =>
      if accept then
        ({ pendingGuest := none,
           guests := st.guests ++ [{ g with status := .connected }] },
         [.joinApproved (some g.id)])
      else
        ({ st with pendingGuest := none }, [.joinRejected (some g.id)])

/-- Guest-side connection status (`App.tsx` `guestConnectionStatus`). -/
inductive GuestConn where
  | idle : GuestConn
  | requesting : GuestConn
  | connected : GuestConn
  | rejected : GuestConn
deriving DecidableEq

/-- Guest-side state touched by `handleGuestMessage`, together with the
persistent local guest id that `getGuestId` returns. -/
structure GuestView where
  conn : GuestConn
  transcript : List EntryM
  myGuestId : String
deriving DecidableEq

/-- Embeds `handleGuestMessage` (lines 84 to 115): `JOIN_APPROVED` sets the
status to connected with no comparison of the payload against the local
guest id (the source comments that strict guest id matching was removed);
`JOIN_REJECTED` sets rejected; transcript updates and clears apply only
while connected; `SESSION_ENDED` resets to idle and clears the
transcript. -/
def handleGuestMessage (st : GuestView) (m : SigMsg) : GuestView :=
  match m with
  | .joinApproved _ => { st with conn := .connected }
  | .joinRejected _ => { st with conn := .rejected }
  | .transcriptUpdate e =>
      if st.conn = .connected then { st with transcript := st.transcript ++ [e] }
      else st
  | .transcriptClear =>
      if st.conn = .connected then { st with transcript := [] } else st
  | .sessionEnded => { st with conn := .idle, transcript := [] }
  | .joinRequestMsg _ => st

/-! ## Helper lemmas -/

/-- Events actually delivered by a call that may throw: the emitted list on
normal return, nothing when the error propagates to the caller. -/
def evsOf : Except String (List Ev) → List Ev
  | .ok evs => evs
  | .error _ => []

theorem length_flatten_i16 (samples : List ℚ) :
    ((samples.map i16leBytes).flatten).length = 2 * samples.length := by
  induction samples with
  | nil => rfl
  | cons a l ih =>
      simp [i16leBytes, u16le, ih]
      ring

theorem leVal_u32le (v : Nat) (h : v < 4294967296) : leVal (u32le v) = v := by
  simp [leVal, u32le]
  omega

theorem leVal_u16le (v : Nat) (h : v < 65536) : leVal (u16le v) = v := by
  simp [leVal, u16le]
  omega

/-! ## Claims about the session coordinator -/

/-- C10: a guest receiving `JOIN_APPROVED` transitions to connected from
every current state, not only while requesting, and nothing compares the
payload guest id with the local persistent id: for every guest view and
every payload the handler returns the same view with status connected. -/
theorem guest_approval_unconditional (st : GuestView) (p : Option String) :
    handleGuestMessage st (.joinApproved p) = { st with conn := .connected } :=
  rfl

/-- C2 counterexample: with a request from sender "alice123" pending, a
second `JOIN_REQUEST` from sender "bob45678" replaces the pending guest
record, so the pending record does not stay unchanged. -/
theorem second_join_request_cx :
    (handleHostMessage
        (handleHostMessage ⟨none, []⟩ (.joinRequestMsg "alice123"))
        (.joinRequestMsg "bob45678")).pendingGuest.map Guest.id
      = some "bob45678" ∧
    (handleHostMessage ⟨none, []⟩
        (.joinRequestMsg "alice123")).pendingGuest.map Guest.id
      = some "alice123" ∧
    some "bob45678" ≠ some "alice123" := by
  refine ⟨rfl, rfl, by decide⟩

/-- C2 amended: while a join request is pending, a second `JOIN_REQUEST`
overwrites the pending guest record with a fresh pending record derived
from the new sender id; the first request is discarded without being
resolved. -/
theorem second_join_request_overwrites (st : HostState) (g : Guest)
    (sid : String) (_hp : st.pendingGuest = some g) :
    (handleHostMessage st (.joinRequestMsg sid)).pendingGuest
      = some ⟨sid, "Guest " ++ sid.take 4, .pending⟩ := by
  simp [handleHostMessage]

/-- Witness for the amended C2 at concrete senders. -/
theorem second_join_request_overwrites_witness :
    (⟨some ⟨"alice123", "Guest alic", .pending⟩, []⟩ : HostState).pendingGuest
      = some ⟨"alice123", "Guest alic", .pending⟩ ∧
    (handleHostMessage ⟨some ⟨"alice123", "Guest alic", .pending⟩, []⟩
        (.joinRequestMsg "bob45678")).pendingGuest
      = some ⟨"bob45678", "Guest " ++ "bob45678".take 4, .pending⟩ :=
  ⟨rfl, second_join_request_overwrites _ _ "bob45678" rfl⟩

/-- C7 counterexample: when the microphone acquisition fails during
`connect` on a fresh service, the error is surfaced, yet the audio context
field has already been mutated when `connect` returns, so the start
sequence does not abort before any service state is mutated. -/
theorem connect_failure_cx :
    (WhisperV1.connect WhisperV1.initState false
        "NotAllowedError: permission denied").1.hasAudioContext = true ∧
    (WhisperV1.connect WhisperV1.initState false
        "NotAllowedError: permission denied").2
      = [.errorEv "NotAllowedError: permission denied"] := by
  refine ⟨rfl, rfl⟩

/-- C7 amended: when the microphone acquisition fails during `connect` on a
service that is not connected, the error is surfaced to the caller and the
start sequence aborts before the processor, the media stream, the flush
timer or the connected flag are set; the audio context, however, has
already been created and assigned before the failure and remains set. -/
theorem connect_failure_aborts (st : WhisperV1.State) (msg : String)
    (h : st.isConnected = false) :
    WhisperV1.connect st false msg
      = ({ st with hasAudioContext := true }, [.errorEv msg]) := by
  simp [WhisperV1.connect, h]

/-- Witness for the amended C7 on the fresh service. -/
theorem connect_failure_aborts_witness :
    WhisperV1.initState.isConnected = false ∧
    WhisperV1.connect WhisperV1.initState false "NotAllowedError"
      = ({ WhisperV1.initState with hasAudioContext := true },
         [.errorEv "NotAllowedError"]) :=
  ⟨rfl, connect_failure_aborts WhisperV1.initState "NotAllowedError" rfl⟩

/-! ## Claims about the capture pipeline of `src/unnamed/part_001` -/

/-- C1 (behaviour actually implemented): stopping the capture cancels the
flush timer, but the remaining accumulated audio is never flushed:
`disconnect` clears the connected flag before it re-enters
`processAudioChunk`, whose guard then returns immediately, so for every
stop with a non-empty accumulation buffer no request is sent, no packet is
encoded, the only emitted event is the disconnect signal, and the buffered
audio is left behind unconsumed. -/
theorem disconnect_drops_buffer (st : WhisperV1.State) (resp : HFResponse)
    (_hc : st.isConnected = true) (hb : 0 < st.bufferLength) :
    (WhisperV1.disconnect 2 st resp).2 = [.disconnectEv] ∧
    (WhisperV1.disconnect 2 st resp).2.countP isRequestEv = 0 ∧
    (WhisperV1.disconnect 2 st resp).1.audioBuffer = st.audioBuffer ∧
    (WhisperV1.disconnect 2 st resp).1.hasTimer = false ∧
    (WhisperV1.disconnect 2 st resp).1.isConnected = false := by
  have hguard : (WhisperV1.processAudioChunk 1
      { st with isConnected := false, hasTimer := false } resp)
      = ({ st with isConnected := false, hasTimer := false }, []) := by
    simp [WhisperV1.processAudioChunk]
  simp [WhisperV1.disconnect, hb, hguard, isRequestEv]

/-- Witness for C1: a connected service with one buffered sample. -/
theorem disconnect_drops_buffer_witness :
    (⟨true, true, true, true, true, [[1]], 1⟩ : WhisperV1.State).isConnected
        = true ∧
    0 < (⟨true, true, true, true, true, [[1]], 1⟩ : WhisperV1.State).bufferLength ∧
    (WhisperV1.disconnect 2 ⟨true, true, true, true, true, [[1]], 1⟩
        ⟨200, "OK", .objBody none none⟩).2 = [.disconnectEv] :=
  ⟨rfl, by decide,
    (disconnect_drops_buffer ⟨true, true, true, true, true, [[1]], 1⟩
      ⟨200, "OK", .objBody none none⟩ rfl (by decide)).1⟩

/-- C3: a transcription response with status 401 or 403 makes the first
iteration`s client throw exactly one authentication error, which the chunk
processor surfaces through the error callback and answers by disconnecting
the service; no transcript entry is emitted. -/
theorem auth_failure_stops_capture (st : WhisperV1.State) (resp : HFResponse)
    (hc : st.isConnected = true) (hb : st.bufferLength ≠ 0)
    (hs : resp.status = 401 ∨ resp.status = 403) :
    (WhisperV1.processAudioChunk 2 st resp).2
      = [.requestSent (encodeToWAV st.audioBuffer.flatten TARGET_SAMPLE_RATE),
         .errorEv WhisperV1.authMsg, .disconnectEv] ∧
    (WhisperV1.processAudioChunk 2 st resp).2.countP isErrorEv = 1 ∧
    (WhisperV1.processAudioChunk 2 st resp).2.countP isTranscriptionEv = 0 ∧
    (WhisperV1.processAudioChunk 2 st resp).1.isConnected = false := by
  have hsend : WhisperV1.sendToHuggingFace resp = .error WhisperV1.authMsg := by
    rcases hs with h | h <;> simp [WhisperV1.sendToHuggingFace, responseOk, h]
  have hauth : containsSub WhisperV1.authMsg "Authentication" = true := by decide
  simp [WhisperV1.processAudioChunk, WhisperV1.disconnect, hb, hc, hsend, hauth,
    isErrorEv, isTranscriptionEv]

/-- Witness for C3: one buffered sample, a 401 response. -/
theorem auth_failure_stops_capture_witness :
    (⟨true, true, true, true, true, [[1]], 1⟩ : WhisperV1.State).isConnected
        = true ∧
    (⟨true, true, true, true, true, [[1]], 1⟩ : WhisperV1.State).bufferLength
        ≠ 0 ∧
    ((⟨401, "Unauthorized", .objBody none none⟩ : HFResponse).status = 401 ∨
      (⟨401, "Unauthorized", .objBody none none⟩ : HFResponse).status = 403) ∧
    (WhisperV1.processAudioChunk 2 ⟨true, true, true, true, true, [[1]], 1⟩
        ⟨401, "Unauthorized", .objBody none none⟩).1.isConnected = false :=
  ⟨rfl, by decide, Or.inl rfl,
    (auth_failure_stops_capture ⟨true, true, true, true, true, [[1]], 1⟩
      ⟨401, "Unauthorized", .objBody none none⟩ rfl (by decide)
      (Or.inl rfl)).2.2.2⟩

/-! ## Claims about the revised pipeline
(`WhisperService` inside `src/components/AudioVisualizer.tsx`) -/

/-- C4: a non-success response whose JSON error body carries a message
containing the marker "loading" makes the revised client fire the warm-up
callback exactly once and return normally, with no error raised and no
transcript entry emitted. -/
theorem warmup_on_loading (hasST : Bool) (resp : HFResponse)
    (t? : Option String) (e : String)
    (hok : responseOk resp = false)
    (hbody : resp.body = .objBody t? (some e))
    (hl : containsSub e "loading" = true) :
    WhisperV2.sendToHuggingFace hasST resp = (hasST, .ok [.warmupEv]) ∧
    (evsOf (WhisperV2.sendToHuggingFace hasST resp).2).countP isWarmupEv = 1 ∧
    (evsOf (WhisperV2.sendToHuggingFace hasST resp).2).countP isTranscriptionEv
        = 0 := by
  have h : WhisperV2.sendToHuggingFace hasST resp = (hasST, .ok [.warmupEv]) := by
    simp [WhisperV2.sendToHuggingFace, hok, hbody, hl]
  refine ⟨h, ?_, ?_⟩ <;> rw [h] <;> rfl

/-- Witness for C4: a 503 response whose body reports the model loading. -/
theorem warmup_on_loading_witness :
    responseOk ⟨503, "Service Unavailable",
        .objBody none (some "Model is currently loading")⟩ = false ∧
    containsSub "Model is currently loading" "loading" = true ∧
    WhisperV2.sendToHuggingFace false
        ⟨503, "Service Unavailable",
          .objBody none (some "Model is currently loading")⟩
      = (false, .ok [.warmupEv]) :=
  ⟨rfl, by decide,
    (warmup_on_loading false
      ⟨503, "Service Unavailable",
        .objBody none (some "Model is currently loading")⟩
      none "Model is currently loading" rfl rfl (by decide)).1⟩

/-- C5: a flush whose accumulated buffer the silence gate classifies as
silent is dropped before encoding: the chunk processor empties the buffer
and returns with no events at all, so no packet is encoded and no network
request is made. -/
theorem silent_chunk_dropped (st : WhisperV2.State) (resp : HFResponse)
    (hc : st.isConnected = true) (hb : st.bufferLength ≠ 0)
    (hsil : WhisperV2.isSilent st.audioBuffer.flatten = true) :
    WhisperV2.processAudioChunk 2 st resp
      = ({ st with audioBuffer := [], bufferLength := 0 }, []) ∧
    (WhisperV2.processAudioChunk 2 st resp).2.countP isRequestEv = 0 := by
  have h : WhisperV2.processAudioChunk 2 st resp
      = ({ st with audioBuffer := [], bufferLength := 0 }, []) := by
    simp [WhisperV2.processAudioChunk, hc, hb, hsil]
  exact ⟨h, by rw [h]; rfl⟩

/-- Witness for C5: an all-zero accumulated buffer of three samples. -/
theorem silent_chunk_dropped_witness :
    (⟨true, true, true, true, true, false, [[0, 0, 0]], 3⟩ :
        WhisperV2.State).isConnected = true ∧
    (⟨true, true, true, true, true, false, [[0, 0, 0]], 3⟩ :
        WhisperV2.State).bufferLength ≠ 0 ∧
    WhisperV2.isSilent
        ((⟨true, true, true, true, true, false, [[0, 0, 0]], 3⟩ :
          WhisperV2.State).audioBuffer.flatten) = true ∧
    (WhisperV2.processAudioChunk 2
        ⟨true, true, true, true, true, false, [[0, 0, 0]], 3⟩
        ⟨200, "OK", .objBody none none⟩).2.countP isRequestEv = 0 := by
  have hsil : WhisperV2.isSilent
      ((⟨true, true, true, true, true, false, [[0, 0, 0]], 3⟩ :
        WhisperV2.State).audioBuffer.flatten) = true := by
    simp [WhisperV2.isSilent]
  exact ⟨rfl, by decide, hsil,
    (silent_chunk_dropped _ ⟨200, "OK", .objBody none none⟩ rfl (by decide)
      hsil).2⟩

/-- With the one-shot flag already set, no response whatsoever makes the
revised client fire the ready callback, and the flag stays set. -/
theorem sendHF_flag_set_no_ready (resp2 : HFResponse) :
    (WhisperV2.sendToHuggingFace true resp2).1 = true ∧
    (evsOf (WhisperV2.sendToHuggingFace true resp2).2).countP isReadyEv
        = 0 := by
  unfold WhisperV2.sendToHuggingFace
  cases h2 : responseOk resp2 with
  | false =>
      cases hb : resp2.body with
      | objBody t? e? =>
          cases e? with
          | none => simp [h2, hb, evsOf]
          | some e =>
              by_cases hl : containsSub e "loading" = true <;>
                simp [h2, hb, hl, evsOf, isReadyEv]
      | arrBody t? => simp [h2, hb, evsOf]
      | rawText s => simp [h2, hb, evsOf]
  | true =>
      cases hb : resp2.body with
      | objBody t? e? =>
          by_cases ht : 0 < (jsTrim (t?.getD "")).length <;>
            simp [h2, hb, WhisperV2.bodyText, ht, evsOf, isReadyEv]
      | arrBody t? =>
          by_cases ht : 0 < (jsTrim (t?.getD "")).length <;>
            simp [h2, hb, WhisperV2.bodyText, ht, evsOf, isReadyEv]
      | rawText s => simp [h2, hb, evsOf]

/-- C6: the revised client fires the ready callback exactly once, on the
first successful response whose trimmed text is non-empty: that call also
sets the one-shot flag, and with the flag set no response of any kind ever
fires the ready callback again (and the flag never resets). -/
theorem ready_fires_once (resp resp2 : HFResponse)
    (hok : responseOk resp = true)
    (hraw : ∀ s, resp.body ≠ .rawText s)
    (htext : 0 < (jsTrim ((WhisperV2.bodyText resp.body).getD "")).length) :
    (WhisperV2.sendToHuggingFace false resp).1 = true ∧
    (evsOf (WhisperV2.sendToHuggingFace false resp).2).countP isReadyEv = 1 ∧
    (WhisperV2.sendToHuggingFace true resp2).1 = true ∧
    (evsOf (WhisperV2.sendToHuggingFace true resp2).2).countP isReadyEv
        = 0 := by
  refine ⟨?_, ?_, (sendHF_flag_set_no_ready resp2).1,
    (sendHF_flag_set_no_ready resp2).2⟩
  · cases hb : resp.body with
    | objBody t? e? =>
        rw [hb] at htext
        simp [WhisperV2.sendToHuggingFace, hok, hb, WhisperV2.bodyText] at *
        simp [htext]
    | arrBody t? =>
        rw [hb] at htext
        simp [WhisperV2.sendToHuggingFace, hok, hb, WhisperV2.bodyText] at *
        simp [htext]
    | rawText s => exact absurd hb (hraw s)
  · cases hb : resp.body with
    | objBody t? e? =>
        rw [hb] at htext
        simp [WhisperV2.sendToHuggingFace, hok, hb, WhisperV2.bodyText] at *
        simp [htext, evsOf, isReadyEv]
    | arrBody t? =>
        rw [hb] at htext
        simp [WhisperV2.sendToHuggingFace, hok, hb, WhisperV2.bodyText] at *
        simp [htext, evsOf, isReadyEv]
    | rawText s => exact absurd hb (hraw s)

/-- Witness for C6: a successful response carrying the text "hello",
followed by a second identical response. -/
theorem ready_fires_once_witness :
    responseOk ⟨200, "OK", .objBody (some "hello") none⟩ = true ∧
    0 < (jsTrim ((WhisperV2.bodyText
        (⟨200, "OK", .objBody (some "hello") none⟩ : HFResponse).body).getD
          "")).length ∧
    (WhisperV2.sendToHuggingFace false
        ⟨200, "OK", .objBody (some "hello") none⟩).1 = true ∧
    (evsOf (WhisperV2.sendToHuggingFace false
        ⟨200, "OK", .objBody (some "hello") none⟩).2).countP isReadyEv = 1 ∧
    (evsOf (WhisperV2.sendToHuggingFace true
        ⟨200, "OK", .objBody (some "hello") none⟩).2).countP isReadyEv = 0 := by
  have h := ready_fires_once ⟨200, "OK", .objBody (some "hello") none⟩
    ⟨200, "OK", .objBody (some "hello") none⟩ (by decide)
    (fun s h => by cases h) (by decide)
  exact ⟨by decide, by decide, h.1, h.2.1, h.2.2.2⟩

set_option maxHeartbeats 2000000 in
/-- C8: for every sample sequence and rate (within the 32 bit ranges the
container can express), the encoder output is exactly `44 + 2 N` bytes: the
RIFF/WAVE tags sit at their offsets, the RIFF size field reads back
`36 + 2 N`, the format chunk declares length 16, PCM (tag 1), one channel,
the given sample rate, byte rate `2 r`, block align 2 and 16 bits per
sample, the data chunk length reads back `2 N`, and the tail is the
samples encoded as little-endian signed 16 bit values; for `N = 0` the
output is exactly the 44 byte header with the length fields at their
minimum values. -/
theorem encodeToWAV_spec (samples : List ℚ) (r : Nat)
    (h1 : 36 + 2 * samples.length < 4294967296)
    (h2 : 2 * r < 4294967296) :
    (encodeToWAV samples r).length = 44 + 2 * samples.length ∧
    (encodeToWAV samples r).take 4 = [82, 73, 70, 70] ∧
    leVal (((encodeToWAV samples r).drop 4).take 4)
        = 36 + 2 * samples.length ∧
    ((encodeToWAV samples r).drop 8).take 4 = [87, 65, 86, 69] ∧
    ((encodeToWAV samples r).drop 12).take 4 = [102, 109, 116, 32] ∧
    leVal (((encodeToWAV samples r).drop 16).take 4) = 16 ∧
    leVal (((encodeToWAV samples r).drop 20).take 2) = 1 ∧
    leVal (((encodeToWAV samples r).drop 22).take 2) = 1 ∧
    leVal (((encodeToWAV samples r).drop 24).take 4) = r ∧
    leVal (((encodeToWAV samples r).drop 28).take 4) = 2 * r ∧
    leVal (((encodeToWAV samples r).drop 32).take 2) = 2 ∧
    leVal (((encodeToWAV samples r).drop 34).take 2) = 16 ∧
    ((encodeToWAV samples r).drop 36).take 4 = [100, 97, 116, 97] ∧
    leVal (((encodeToWAV samples r).drop 40).take 4) = 2 * samples.length ∧
    (encodeToWAV samples r).drop 44 = (samples.map i16leBytes).flatten := by
  have hriff : ((encodeToWAV samples r).drop 4).take 4
      = u32le (36 + samples.length * 2) := rfl
  have hrate : ((encodeToWAV samples r).drop 24).take 4 = u32le r := rfl
  have hbyterate : ((encodeToWAV samples r).drop 28).take 4
      = u32le (r * 2) := rfl
  have hdatalen : ((encodeToWAV samples r).drop 40).take 4
      = u32le (samples.length * 2) := rfl
  refine ⟨?_, rfl, ?_, rfl, rfl, rfl, rfl, rfl, ?_, ?_, rfl, rfl, rfl, ?_,
    rfl⟩
  · simp [encodeToWAV, u32le, u16le, List.length_append,
      length_flatten_i16 samples]
    omega
  · rw [hriff, leVal_u32le (36 + samples.length * 2) (by omega)]
    omega
  · rw [hrate, leVal_u32le r (by omega)]
  · rw [hbyterate, leVal_u32le (r * 2) (by omega)]
    omega
  · rw [hdatalen, leVal_u32le (samples.length * 2) (by omega)]
    omega

/-- Witness for C8: two samples at rate 16000. -/
theorem encodeToWAV_spec_witness :
    36 + 2 * ([1/2, -1/2] : List ℚ).length < 4294967296 ∧
    2 * 16000 < 4294967296 ∧
    (encodeToWAV [1/2, -1/2] 16000).length
        = 44 + 2 * ([1/2, -1/2] : List ℚ).length ∧
    leVal (((encodeToWAV [1/2, -1/2] 16000).drop 40).take 4)
        = 2 * ([1/2, -1/2] : List ℚ).length :=
  ⟨by decide, by decide,
    (encodeToWAV_spec [1/2, -1/2] 16000 (by decide) (by decide)).1,
    (encodeToWAV_spec [1/2, -1/2] 16000 (by decide)
      (by decide)).2.2.2.2.2.2.2.2.2.2.2.2.2.1⟩

theorem getD_map_range (n i : Nat) (f : Nat → ℚ) (h : i < n) :
    ((List.range n).map f).getD i 0 = f i := by
  simp [List.getD_eq_getElem?_getD, List.getElem?_map, List.getElem?_range, h]

/-- C9: for a block of N samples at rate `rin` and positive target rate,
the resampler returns the input itself when the rates are equal; otherwise
it returns `ceil(N * target / rin)` samples, output sample `i` is the
linear interpolation of the two input samples around fractional index
`i * rin / target` whenever the second neighbour exists, and an output
sample whose interpolation would read past the input end instead holds the
last available input sample. -/
theorem resampleCore_spec (target rin : ℚ) (input : List ℚ)
    (ht : 0 < target) (hr : 0 < rin) :
    (rin = target → resampleCore target input rin = input) ∧
    (rin ≠ target →
      (resampleCore target input rin).length
          = (⌈(input.length : ℚ) * target / rin⌉).toNat ∧
      ∀ i, i < (resampleCore target input rin).length →
        ((⌊(i : ℚ) * (rin / target)⌋).toNat < input.length ∧
         ((⌊(i : ℚ) * (rin / target)⌋).toNat + 1 < input.length →
           (resampleCore target input rin).getD i 0
             = input.getD (⌊(i : ℚ) * (rin / target)⌋).toNat 0
                 * (1 - ((i : ℚ) * (rin / target)
                     - ((⌊(i : ℚ) * (rin / target)⌋).toNat : ℚ)))
               + input.getD ((⌊(i : ℚ) * (rin / target)⌋).toNat + 1) 0
                 * ((i : ℚ) * (rin / target)
                     - ((⌊(i : ℚ) * (rin / target)⌋).toNat : ℚ))) ∧
         (input.length ≤ (⌊(i : ℚ) * (rin / target)⌋).toNat + 1 →
           (resampleCore target input rin).getD i 0
             = input.getD (input.length - 1) 0))) := by
  constructor
  · intro h; simp [resampleCore, h]
  · intro hneq
    have hratio : (0 : ℚ) < rin / target := div_pos hr ht
    have hlen : (resampleCore target input rin).length
        = (⌈(input.length : ℚ) * target / rin⌉).toNat := by
      simp only [resampleCore, if_neg hneq, List.length_map, List.length_range]
      rw [ratCeil_eq, div_div_eq_mul_div]
    refine ⟨hlen, ?_⟩
    intro i hi
    rw [hlen] at hi
    have hiq : (i : ℚ) < (input.length : ℚ) * target / rin := by
      have h1 : (i : ℤ) < ⌈(input.length : ℚ) * target / rin⌉ :=
        Int.lt_toNat.mp hi
      exact_mod_cast Int.lt_ceil.mp h1
    have hidxN : (i : ℚ) * (rin / target) < (input.length : ℚ) := by
      have h2 := mul_lt_mul_of_pos_right hiq hratio
      calc (i : ℚ) * (rin / target)
          < (input.length : ℚ) * target / rin * (rin / target) := h2
        _ = (input.length : ℚ) := by
            field_simp
    have hidx0 : (0 : ℚ) ≤ (i : ℚ) * (rin / target) :=
      mul_nonneg (Nat.cast_nonneg i) (le_of_lt hratio)
    have hfl0 : 0 ≤ ⌊(i : ℚ) * (rin / target)⌋ := Int.floor_nonneg.mpr hidx0
    have hflN : ⌊(i : ℚ) * (rin / target)⌋ < (input.length : ℤ) :=
      Int.floor_lt.mpr (by exact_mod_cast hidxN)
    have hpN : (⌊(i : ℚ) * (rin / target)⌋).toNat < input.length := by omega
    have hgetD : (resampleCore target input rin).getD i 0
        = (fun (j : Nat) =>
            let idx : ℚ := (j : ℚ) * (rin / target)
            let p := (Rat.floor idx).toNat
            let t := idx - (p : ℚ)
            let s0 := input.getD p 0
            let s1 := if p + 1 < input.length then input.getD (p + 1) 0 else s0
            s0 * (1 - t) + s1 * t) i := by
      have hiL : i < (ratCeil ((input.length : ℚ) / (rin / target))).toNat := by
        rw [ratCeil_eq, div_div_eq_mul_div]
        exact hi
      simp only [resampleCore, if_neg hneq]
      exact getD_map_range _ i _ hiL
    refine ⟨hpN, ?_, ?_⟩
    · intro hcase
      rw [hgetD]
      simp only [ratFloor_eq]
      rw [if_pos hcase]
    · intro hcase
      rw [hgetD]
      simp only [ratFloor_eq]
      rw [if_neg (by omega)]
      have hp1 : (⌊(i : ℚ) * (rin / target)⌋).toNat = input.length - 1 := by
        omega
      rw [hp1]
      ring

/-- Witness for C9: the copy case at 16000 to 16000 and the length in the
halving case from 32000 to 16000, on the two-sample block `[0, 1]`. -/
theorem resampleCore_spec_witness :
    (0 : ℚ) < 16000 ∧ (0 : ℚ) < 32000 ∧
    resampleCore 16000 [0, 1] 16000 = [0, 1] ∧
    (resampleCore 16000 [0, 1] 32000).length
        = (⌈(([0, 1] : List ℚ).length : ℚ) * 16000 / 32000⌉).toNat :=
  ⟨by norm_num, by norm_num,
    (resampleCore_spec 16000 16000 [0, 1] (by norm_num) (by norm_num)).1 rfl,
    ((resampleCore_spec 16000 32000 [0, 1] (by norm_num) (by norm_num)).2
      (by norm_num)).1⟩
